import Mathlib

/-!
Verification of the rag-app document/chat system against its specification.

The data model (ProcessingStatus, Document, Source, QueryType,
RetrievalStrategy, AskResponse, Message) is embedded from
the frontend type declarations (src/unnamed/part_001, types.ts).
UI behaviour (DocumentCard, HomePage selection, ChatPage send flow,
UploadModal drag-and-drop, api client payloads) is embedded from the
React components as pure state-transition functions.
The backend core (vector index query, retrieval router, chunker,
ingestion pipeline) is not part of the source tree; those operations are
modelled from the specification text, as marked in their doc comments.
-/

/-- Document processing status, from the union type
`ProcessingStatus = 'pending' | 'processing' | 'completed' | 'failed'`. -/
inductive ProcessingStatus where
  | pending
  | processing
  | completed
  | failed
deriving DecidableEq, Repr

/-- The fields of a document that the document grid consults:
its id, display filename and processing status (from `Document` in types.ts). -/
structure Document where
  id : String
  original_filename : String
  status : ProcessingStatus
deriving DecidableEq, Repr

/-- Message role, from `role: 'user' | 'assistant' | 'system'`. -/
inductive Role where
  | user
  | assistant
  | system
deriving DecidableEq, Repr

/-- A chat message as the frontend receives it (from `Message` in types.ts). -/
structure ChatMessage where
  id : String
  role : Role
  content : String
  created_at : String
deriving DecidableEq, Repr

/-- Query classification label, from
`QueryType = 'document_level' | 'follow_up' | 'chunk_retrieval' | 'mixed'`. -/
inductive QueryType where
  | document_level
  | follow_up
  | chunk_retrieval
  | mixed
deriving DecidableEq, Repr

/-- Retrieval strategy label, from `RetrievalStrategy =
'document_summaries' | 'conversation_history' | 'vector_search' | 'mixed'`. -/
inductive RetrievalStrategy where
  | document_summaries
  | conversation_history
  | vector_search
  | mixed
deriving DecidableEq, Repr

/-- A source citation (from `Source` in types.ts); similarity is modelled
as a rational number. -/
structure Source where
  document_id : String
  document_name : String
  chunk_content : String
  page_number : Option Nat
  similarity : ℚ
deriving DecidableEq, Repr

/-- The response of a successful ask call (from `AskResponse` in types.ts). -/
structure AskResponse where
  answer : String
  sources : List Source
  message_id : String
  query_type : QueryType
  retrieval_strategy : RetrievalStrategy
deriving Repr

/-! ## Document grid and selection (HomePage.tsx, DocumentCard.tsx) -/

/-- DocumentCard: `const isSelectable = document.status === 'completed'`;
the card's click handler runs `isSelectable && onToggle()`. -/
def isSelectable (d : Document) : Bool :=
  decide (d.status = ProcessingStatus.completed)

/-- HomePage `toggleDocument`: copy the selection, delete the id if present,
otherwise add it. JS `Set` insertion order is irrelevant to the selection
semantics, so the selection is a `Finset String`. -/
def toggleDocument (id : String) (sel : Finset String) : Finset String :=
  if id ∈ sel then sel.erase id else insert id sel

/-- A click on the card of document `d`: DocumentCard forwards the click to
`onToggle` (HomePage's `toggleDocument doc.id`) only when `isSelectable d`. -/
def cardClick (d : Document) (sel : Finset String) : Finset String :=
  if isSelectable d then toggleDocument d.id sel else sel

/-- The selection reached from `sel` after a sequence of card clicks. -/
def clickSeq (sel : Finset String) : List Document → Finset String
  | [] => sel
  | d :: rest => clickSeq (cardClick d sel) rest

/-- HomePage `handleStartChat`: issues `createChat(Array.from(selectedIds))`
only when `selectedIds.size > 0`; the payload is the selected id set. -/
def handleStartChat (sel : Finset String) : Option (Finset String) :=
  if 0 < sel.card then some sel else none

/-! ## Chat page send flow (ChatPage.tsx, api client) -/

/-- The JS `String.prototype.trim()` used by ChatPage: removes whitespace
from both ends of the string. -/
def trimText (s : String) : String :=
  String.mk (((s.data.dropWhile Char.isWhitespace).reverse.dropWhile
    Char.isWhitespace).reverse)

/-- Lifecycle state of the react-query send mutation. -/
inductive MutStatus where
  | idle
  | inflight
  | succeeded
  | errored
deriving DecidableEq, Repr

/-- The ChatPage component state relevant to sending a question:
the input text, the last answer's sources and query info, the optimistic
pending user message, the send mutation's status and error, the cached
chat message list, and whether a refetch of it has been queued
(`invalidateQueries`). -/
structure ChatPageState where
  message : String
  lastSources : List Source
  lastQueryInfo : Option (QueryType × RetrievalStrategy)
  pendingMessage : Option String
  mutStatus : MutStatus
  mutError : Option String
  chatMessages : List ChatMessage
  refetchQueued : Bool
deriving Repr

/-- ChatPage `handleSend`: trims the input; when the trimmed text is
nonempty and no send is in flight, it clears the input, sources and query
info, records the optimistic pending message, and starts the mutation with
the trimmed question; otherwise it does nothing. Returns the new state and
the question handed to `sendMutation.mutate`, when any. -/
def handleSend (s : ChatPageState) : ChatPageState × Option String :=
  let trimmed := trimText s.message
  if trimmed ≠ "" ∧ s.mutStatus ≠ MutStatus.inflight then
    let s' : ChatPageState :=
      { s with message := "", lastSources := [], lastQueryInfo := none,
               pendingMessage := some trimmed, mutStatus := MutStatus.inflight,
               mutError := none }
    (s', some trimmed)
  else (s, none)

/-- ChatPage send button `disabled={!message.trim() || sendMutation.isPending}`. -/
def sendDisabled (s : ChatPageState) : Bool :=
  decide (trimText s.message = "") || decide (s.mutStatus = MutStatus.inflight)

/-- The sendMutation `onError` handler together with react-query's own
error bookkeeping: `setPendingMessage(null)` is the only component-state
update; the mutation becomes errored with the failure's message. Nothing
else changes — in particular no query invalidation is issued. -/
def sendOnError (e : String) (s : ChatPageState) : ChatPageState :=
  { s with pendingMessage := none, mutStatus := MutStatus.errored,
           mutError := some e }

/-- The error banner below the input: rendered exactly when
`sendMutation.isError`, showing `(sendMutation.error as Error).message`. -/
def errorBanner (s : ChatPageState) : Option String :=
  if s.mutStatus = MutStatus.errored then s.mutError else none

/-- The JSON body of `api.sendMessage`:
`JSON.stringify({ question, top_k: topK })` posted to
`/chats/{chatId}/messages`. -/
structure SendMessagePayload where
  chat_id : String
  question : String
  top_k : Nat
deriving DecidableEq, Repr

/-- The api client's default for `sendMessage`'s `topK` parameter
(`topK = 5`). -/
def defaultTopK : Nat := 5

/-- `api.sendMessage(chatId, question, topK)`: builds the request payload
with the given top_k. -/
def sendMessage (chatId question : String) (topK : Nat) : SendMessagePayload :=
  { chat_id := chatId, question := question, top_k := topK }

/-- A `sendMessage` call that omits the `topK` argument, so the parameter
default applies. -/
def sendMessageNoTopK (chatId question : String) : SendMessagePayload :=
  sendMessage chatId question defaultTopK

/-- ChatPage's `sendMutation.mutationFn`:
`api.sendMessage(chatId!, question)` — no `topK` argument. -/
def chatPageSendMessage (chatId question : String) : SendMessagePayload :=
  sendMessageNoTopK chatId question

/-! ## Upload modal (UploadModal, in AdminPage.tsx's source bundle) -/

/-- The facts about a browser `File` object that the modal could inspect:
its name (hence extension) and byte size. -/
structure WebFile where
  name : String
  size : Nat
deriving DecidableEq, Repr

/-- The UploadModal component state: drag highlight and the selected file. -/
structure UploadModalState where
  dragActive : Bool
  file : Option WebFile
deriving DecidableEq, Repr

/-- The hidden file input's `accept` attribute — it constrains only the
file-picker dialog, not drag-and-drop. -/
def acceptAttribute : String := ".pdf,.docx,.txt"

/-- UploadModal `handleDrop`: clears the drag highlight and, when the drop
carries at least one file, stores the first one as the selected file —
with no inspection of its name, extension or size. -/
def handleDrop (files : List WebFile) (s : UploadModalState) : UploadModalState :=
  match files with
  | [] => { s with dragActive := false }
  | f :: _ => { dragActive := false, file := some f }

/-- UploadModal `handleUpload`: when a file is selected, it is passed
verbatim to `api.uploadDocument`; returns that file, when any. -/
def handleUpload (s : UploadModalState) : Option WebFile :=
  s.file

/-! ## Vector Index (spec §4.2; backend implementation absent from src/) -/

/-- A chunk row of the vector index: its id, owning document and ordinal
position (spec §3, Chunk). -/
structure Chunk where
  chunk_id : String
  document_id : String
  ordinal : Nat
deriving DecidableEq, Repr

/-- The ranking relation of query results: a result precedes another when
its similarity is strictly greater, or the similarities are equal and its
chunk ordinal is not larger (descending similarity, ties by ascending
ordinal). -/
def simRank (a b : Chunk × ℚ) : Prop :=
  b.2 < a.2 ∨ (a.2 = b.2 ∧ a.1.ordinal ≤ b.1.ordinal)

instance : DecidableRel simRank := fun a b => by
  unfold simRank
  infer_instance

instance : IsTotal (Chunk × ℚ) simRank := by
  constructor
  intro a b
  rcases lt_trichotomy a.2 b.2 with h | h | h
  · exact Or.inr (Or.inl h)
  · rcases Nat.le_total a.1.ordinal b.1.ordinal with ho | ho
    · exact Or.inl (Or.inr ⟨h, ho⟩)
    · exact Or.inr (Or.inr ⟨h.symm, ho⟩)
  · exact Or.inl (Or.inl h)

instance : IsTrans (Chunk × ℚ) simRank := by
  constructor
  intro a b c hab hbc
  rcases hab with hab | ⟨hab, hoab⟩
  · rcases hbc with hbc | ⟨hbc, _⟩
    · exact Or.inl (hbc.trans hab)
    · exact Or.inl (hbc ▸ hab)
  · rcases hbc with hbc | ⟨hbc, hobc⟩
    · exact Or.inl (hab ▸ hbc)
    · exact Or.inr ⟨hab.trans hbc, hoab.trans hobc⟩

/-- Modelled from the spec: Vector Index
`query(vector, candidate_document_ids, k)` of §4.2 — the backend index
(pgvector) is not in src/. The real-valued cosine similarity of each
stored chunk's vector with the query vector is abstracted as the score
function `sim`; the operation keeps only chunks of the candidate
documents, pairs each with its score, sorts descending by score with
ties broken by ascending chunk ordinal, and returns at most `k` results. -/
def vectorQuery (sim : Chunk → ℚ) (chunks : List Chunk)
    (docs : List String) (k : Nat) : List (Chunk × ℚ) :=
  let scored := (chunks.filter fun c => decide (c.document_id ∈ docs)).map
    fun c => (c, sim c)
  (scored.insertionSort simRank).take k

/-! ## Retrieval Router (spec §4.4; backend implementation absent from src/) -/

/-- Modelled from the spec: the Retrieval Router's deterministic mapping
from a classification to a retrieval strategy (table of §4.4) — the
backend router is not in src/. -/
def routeStrategy : QueryType → RetrievalStrategy
  | QueryType.document_level => RetrievalStrategy.document_summaries
  | QueryType.follow_up => RetrievalStrategy.conversation_history
  | QueryType.chunk_retrieval => RetrievalStrategy.vector_search
  | QueryType.mixed => RetrievalStrategy.mixed

/-! ## Chunker and ingestion result (spec §4.1; backend absent from src/) -/

/-- Modelled from the spec: the number of fixed-length chunks of a text of
`n` characters with target length `size` and stride `stride`
(= size − overlap). Chunks start at multiples of the stride; the process
stops with the chunk that reaches the end of the text, so for
`n > size` there are `1 + ⌈(n − size) / stride⌉` chunks. -/
def numChunks (size stride n : Nat) : Nat :=
  if n = 0 then 0
  else if n ≤ size then 1
  else 1 + (n - size + stride - 1) / stride

/-- The start offsets of the chunks of an `n`-character text. -/
def chunkStarts (size stride n : Nat) : List Nat :=
  (List.range (numChunks size stride n)).map fun i => i * stride

/-- Modelled from the spec: the Chunker of §4.1 step 2 — fixed target
length in characters with a fixed character overlap between consecutive
chunks (overlap strictly less than the target length); the backend
chunker is not in src/. Each chunk is the `size`-character slice of the
text at its start offset. -/
def chunkText (size overlap : Nat) (s : List Char) : List (List Char) :=
  (chunkStarts size (size - overlap) s.length).map fun i => (s.drop i).take size

/-- The document fields the ingestion pipeline settles: final status and
chunk count. -/
structure IngestResult where
  status : ProcessingStatus
  chunk_count : Nat
deriving DecidableEq, Repr

/-- Modelled from the spec: the Ingestion Pipeline of §4.1 on an
already-extracted text, with extraction, embedding and persistence
succeeding — it chunks the text, sets `chunk_count` to the number of
persisted chunks and moves the document to `completed` (step 5); the
backend pipeline is not in src/. -/
def ingestText (size overlap : Nat) (s : List Char) : IngestResult :=
  { status := ProcessingStatus.completed
    chunk_count := (chunkText size overlap s).length }

/-! ## Theorems -/

theorem isSelectable_iff (d : Document) :
    isSelectable d = true ↔ d.status = ProcessingStatus.completed := by
  simp [isSelectable]

theorem clickSeq_mem (events : List Document) (sel : Finset String)
    (id : String) (h : id ∈ clickSeq sel events) :
    id ∈ sel ∨ ∃ d, d ∈ events ∧ d.id = id ∧
      d.status = ProcessingStatus.completed := by
  induction events generalizing sel with
  | nil => exact Or.inl h
  | cons d rest ih =>
    simp only [clickSeq] at h
    rcases ih (cardClick d sel) h with hmem | ⟨d', hd', hid, hst⟩
    · by_cases hsel : isSelectable d = true
      · simp only [cardClick, hsel, if_true] at hmem
        by_cases hin : d.id ∈ sel
        · simp only [toggleDocument, hin, if_true] at hmem
          exact Or.inl (Finset.mem_of_mem_erase hmem)
        · simp only [toggleDocument, hin, if_false] at hmem
          rcases Finset.mem_insert.mp hmem with heq | hmem'
          · exact Or.inr ⟨d, List.mem_cons_self d rest, heq.symm,
              (isSelectable_iff d).mp hsel⟩
          · exact Or.inl hmem'
      · simp only [cardClick, hsel, if_false] at hmem
        exact Or.inl hmem
    · exact Or.inr ⟨d', List.mem_cons_of_mem d hd', hid, hst⟩

/-- C1: the document card's toggle is enabled exactly for completed
documents, so any selection reachable by card clicks from the empty
selection contains only ids of completed documents, and the document-id
payload `handleStartChat` sends to chat creation therefore carries only
ids of completed documents. -/
theorem chat_payload_only_completed (events : List Document)
    (payload : Finset String)
    (h : handleStartChat (clickSeq ∅ events) = some payload) :
    (∀ id ∈ payload, ∃ d, d ∈ events ∧ d.id = id ∧
      d.status = ProcessingStatus.completed) ∧
    (∀ d : Document, isSelectable d = true ↔
      d.status = ProcessingStatus.completed) := by
  refine ⟨?_, isSelectable_iff⟩
  have hpay : payload = clickSeq ∅ events := by
    unfold handleStartChat at h
    by_cases hc : 0 < (clickSeq ∅ events).card
    · simp only [hc, if_true, Option.some.injEq] at h
      exact h.symm
    · simp [hc] at h
  intro id hid
  rw [hpay] at hid
  rcases clickSeq_mem events ∅ id hid with habs | hgood
  · exact absurd habs (Finset.not_mem_empty id)
  · exact hgood

theorem chat_payload_only_completed_witness :
    (∀ id ∈ ({"doc1"} : Finset String),
      ∃ d, d ∈ [Document.mk "doc1" "a.pdf" ProcessingStatus.completed] ∧
        d.id = id ∧ d.status = ProcessingStatus.completed) ∧
    (∀ d : Document, isSelectable d = true ↔
      d.status = ProcessingStatus.completed) :=
  chat_payload_only_completed
    [Document.mk "doc1" "a.pdf" ProcessingStatus.completed]
    {"doc1"} (by decide)

/-- C2: the vector index query returns at most `k` results, sorted by
descending similarity with equal-similarity results ordered by ascending
chunk ordinal, and every result is a candidate-document chunk paired with
its similarity score. -/
theorem vectorQuery_ordering (sim : Chunk → ℚ) (chunks : List Chunk)
    (docs : List String) (k : Nat) :
    (vectorQuery sim chunks docs k).length ≤ k ∧
    (vectorQuery sim chunks docs k).Pairwise
      (fun a b => b.2 < a.2 ∨ (a.2 = b.2 ∧ a.1.ordinal ≤ b.1.ordinal)) ∧
    (∀ p ∈ vectorQuery sim chunks docs k,
      p.1.document_id ∈ docs ∧ p.2 = sim p.1) := by
  refine ⟨?_, ?_, ?_⟩
  · unfold vectorQuery
    rw [List.length_take]
    exact min_le_left k _
  · have hs := List.sorted_insertionSort simRank
      ((chunks.filter fun c => decide (c.document_id ∈ docs)).map
        fun c => (c, sim c))
    exact List.Pairwise.sublist (List.take_sublist k _) hs
  · intro p hp
    have hp1 : p ∈ ((chunks.filter fun c =>
        decide (c.document_id ∈ docs)).map fun c => (c, sim c)) := by
      have hp2 := List.take_subset k _ hp
      exact (List.perm_insertionSort simRank _).mem_iff.mp hp2
    rcases List.mem_map.mp hp1 with ⟨c, hc, hcp⟩
    rcases List.mem_filter.mp hc with ⟨_, hdoc⟩
    refine ⟨?_, ?_⟩
    · rw [← hcp]
      exact of_decide_eq_true hdoc
    · rw [← hcp]

/-- C3: a failed send leaves the cached chat history untouched, removes
the optimistic pending user message, queues no refetch of the message
list, and surfaces the failure's message in the error banner. -/
theorem ask_failure_leaves_history_intact (s : ChatPageState) (e : String) :
    (sendOnError e s).chatMessages = s.chatMessages ∧
    (sendOnError e s).pendingMessage = none ∧
    (sendOnError e s).refetchQueued = s.refetchQueued ∧
    errorBanner (sendOnError e s) = some e :=
  ⟨rfl, rfl, rfl, by simp [errorBanner, sendOnError]⟩

/-- C4: the Retrieval Router maps each of the four query types to exactly
the strategy in the table of spec §4.4. -/
theorem routeStrategy_table :
    routeStrategy QueryType.document_level =
      RetrievalStrategy.document_summaries ∧
    routeStrategy QueryType.follow_up =
      RetrievalStrategy.conversation_history ∧
    routeStrategy QueryType.chunk_retrieval =
      RetrievalStrategy.vector_search ∧
    routeStrategy QueryType.mixed = RetrievalStrategy.mixed :=
  ⟨rfl, rfl, rfl, rfl⟩

/-- C5: chunking a 3000-character text with chunk size 1000 and overlap
200 yields exactly 4 chunks, and ingestion of such a text ends with
`chunk_count = 4` and status `completed`. -/
theorem scenario_a_chunking (s : List Char) (h : s.length = 3000) :
    (chunkText 1000 200 s).length = 4 ∧
    ingestText 1000 200 s =
      IngestResult.mk ProcessingStatus.completed 4 := by
  have hlen : (chunkText 1000 200 s).length = 4 := by
    simp only [chunkText, chunkStarts, List.length_map, List.length_range, h]
    decide
  refine ⟨hlen, ?_⟩
  simp [ingestText, hlen]

theorem scenario_a_chunking_witness :
    (chunkText 1000 200 (List.replicate 3000 'a')).length = 4 ∧
    ingestText 1000 200 (List.replicate 3000 'a') =
      IngestResult.mk ProcessingStatus.completed 4 :=
  scenario_a_chunking (List.replicate 3000 'a')
    (List.length_replicate 3000 'a')

/-- C6: every ask response carries exactly one of the four query-type
labels and exactly one of the four retrieval-strategy labels. -/
theorem askResponse_label_sets (r : AskResponse) :
    (r.query_type = QueryType.document_level ∨
     r.query_type = QueryType.follow_up ∨
     r.query_type = QueryType.chunk_retrieval ∨
     r.query_type = QueryType.mixed) ∧
    (r.retrieval_strategy = RetrievalStrategy.document_summaries ∨
     r.retrieval_strategy = RetrievalStrategy.conversation_history ∨
     r.retrieval_strategy = RetrievalStrategy.vector_search ∨
     r.retrieval_strategy = RetrievalStrategy.mixed) := by
  obtain ⟨a, so, m, q, st⟩ := r
  cases q <;> cases st <;> simp

/-- C7: a send without an explicit topK argument carries `top_k = 5`, and
ChatPage's mutation builds its request exactly that way, so every
UI-issued question requests k = 5. -/
theorem ui_send_topk_default (chatId question : String) :
    (chatPageSendMessage chatId question).top_k = 5 ∧
    (sendMessageNoTopK chatId question).top_k = 5 ∧ defaultTopK = 5 :=
  ⟨rfl, rfl, rfl⟩

/-- C8: a dropped file of any name, extension or size becomes the
selected file, and `handleUpload` passes exactly that file to the upload
call — the drag-and-drop path performs no type or size check. -/
theorem drop_accepts_any_file (f : WebFile) (rest : List WebFile)
    (s : UploadModalState) :
    (handleDrop (f :: rest) s).file = some f ∧
    handleUpload (handleDrop (f :: rest) s) = some f :=
  ⟨rfl, rfl⟩

/-- C9: when the trimmed input is empty, `handleSend` issues no request
and leaves the component state unchanged, and the send button is
disabled. -/
theorem empty_input_no_send (s : ChatPageState)
    (h : trimText s.message = "") :
    handleSend s = (s, none) ∧ sendDisabled s = true := by
  constructor
  · simp [handleSend, h]
  · simp [sendDisabled, h]

theorem empty_input_no_send_witness :
    handleSend (ChatPageState.mk "   " [] none none MutStatus.idle none
      [] false) =
      (ChatPageState.mk "   " [] none none MutStatus.idle none [] false,
        none) ∧
    sendDisabled (ChatPageState.mk "   " [] none none MutStatus.idle none
      [] false) = true :=
  empty_input_no_send
    (ChatPageState.mk "   " [] none none MutStatus.idle none [] false)
    (by decide)

/-- C10: toggling a document id is an involution on the selection set:
toggling an absent id inserts it, toggling a present id removes it, and
toggling the same id twice restores the original selection. -/
theorem toggleDocument_involution (sel : Finset String) (x : String) :
    toggleDocument x (toggleDocument x sel) = sel ∧
    (x ∈ sel → toggleDocument x sel = sel.erase x) ∧
    (x ∉ sel → toggleDocument x sel = insert x sel) := by
  refine ⟨?_, fun hx => if_pos hx, fun hx => if_neg hx⟩
  by_cases hx : x ∈ sel
  · simp only [toggleDocument, hx, if_true,
      Finset.not_mem_erase x sel, if_false]
    exact Finset.insert_erase hx
  · simp only [toggleDocument, hx, if_false,
      Finset.mem_insert_self x sel, if_true]
    exact Finset.erase_insert hx

theorem toggleDocument_involution_witness :
    toggleDocument "a" (toggleDocument "a" (∅ : Finset String)) = ∅ ∧
    toggleDocument "a" (∅ : Finset String) = insert "a" ∅ :=
  ⟨(toggleDocument_involution ∅ "a").1,
    (toggleDocument_involution ∅ "a").2.2 (by decide)⟩
